import Mathlib

/-!
Shallow embedding of the VIA Labs node-core validator engine
(`@vialabs-io/node-core`): the per-driver request coordinator
(`DriverBase.processMessageRequest`, in both its shipped variants), the
EVM driver (`DriverEVM.isMessageValid`, `DriverEVM.populateMessage`), the
canonical signing payload (`DriverBase.signTransactionData`), the gossip
ingress de-duplication (`ServiceP2P.handleMessage`) and the orchestrator
routing (`Vladiator.handleMessage`).

External collaborators (RPC providers, the ethers library's keccak /
personal-sign primitives, feature plug-ins) are modelled as function-valued
parameters of an environment record; everything authored in the repository
is translated statement by statement.  A fallible external call is a
function into `Option` (`none` = the call threw / the promise rejected).
-/

namespace NodeCore

/-- Association-list lookup keyed by `String` (models a TS
`Record<string, T>` read: `m[k]`, `undefined` becoming `none`). -/
def mget {β : Type} (m : List (String × β)) (k : String) : Option β :=
  match m with
  | [] => none
  | p :: t => if p.1 = k then some p.2 else mget t k

/-- Association-list removal (models `delete m[k]`). -/
def mdel {β : Type} (m : List (String × β)) (k : String) : List (String × β) :=
  match m with
  | [] => []
  | p :: t => if p.1 = k then mdel t k else p :: mdel t k

/-- Association-list overwrite (models `m[k] = v`). -/
def mset {β : Type} (m : List (String × β)) (k : String) (v : β) : List (String × β) :=
  (k, v) :: mdel m k

/-- The `values` record of an `IMessage` (`src/types/IMessage.ts`).
`chain` is a decimal string in TS and is always consumed through
`Number(...)` coercion; it is modelled by its numeric value. -/
structure Values where
  txId : String
  sender : String
  recipient : String
  chain : Nat
  express : Bool
  encodedData : String
  confirmations : Nat
deriving DecidableEq, Repr

/-- A bus frame (`IMessage`, `src/types/IMessage.ts`); only the fields the
coordinator reads or writes are carried.  Optional TS fields are `Option`. -/
structure Message where
  type : String
  author : String
  source : Option Nat := none
  transactionHash : Option String := none
  values : Option Values := none
  featureId : Option Nat := none
  featureData : Option String := none
  featureReply : Option String := none
  featureFailed : Option Bool := none
  signer : Option String := none
  signature : Option String := none
deriving DecidableEq, Repr

/-- The mutable per-driver caches (`DriverBase`): `signatures` (signature
cache, `"locked"` is the in-progress sentinel), `featureReplies`, and the
`retries` counter of the retry-counting variant of `DriverBase`. -/
structure DriverState where
  signatures : List (String × String)
  featureReplies : List (String × String)
  retries : List (String × Nat)
deriving DecidableEq, Repr

/-- Argument record of `signTransactionData` as built at the call site in
`processMessageRequest`. -/
structure SignArgs where
  txId : String
  sourceChainId : Nat
  destChainId : Nat
  sender : String
  recipient : String
  data : String
deriving DecidableEq, Repr

/-- Tags recording which external (RPC / plug-in / signer) operations a run
of the coordinator invoked, in order. -/
inductive CallTag where
  | populateCall
  | validCall
  | featureCall
  | signCall
deriving DecidableEq, Repr

/-- Environment of the coordinator of `src/drivers/DriverBase.ts`: the
node identity, the orchestrator's driver table (`hasDriver`), and the
abstract asynchronous collaborators.  `populate` returns `none` when
`populateMessage` throws; `isValid` threads the signature cache because
`isMessageValid` of the same driver may delete entries from it; a feature's
`process` returns `none` when it throws or rejects. -/
structure Env where
  nodePublicKey : String
  signerAddress : String
  chainId : Nat
  hasDriver : Nat → Bool
  populate : Message → Option Message
  isValid : List (String × String) → Message → List (String × String) × Bool
  features : Nat → Option (Message → Option Message)
  sign : SignArgs → String

/-- Result of one coordinator run: the updated caches, the frames passed to
`vladiator.sendMessage` in order, and the external calls made. -/
structure RunResult where
  state : DriverState
  emitted : List Message
  calls : List CallTag
deriving DecidableEq, Repr

/-- `DriverBase.processFeatures` (src variant): an unknown `featureId`
returns the message unchanged; a known feature delegates to its `process`
(whose throw / rejection surfaces to the caller as `none`). -/
def processFeatures (env : Env) (m : Message) (fid : Nat) : Option Message :=
  match env.features fid with
  | none => some m
  | some p => p m

/-- The signing tail of `processMessageRequest` (src variant, lines
160-176): store the destination driver's signature under `txId`, then emit
`MESSAGE:SIGNED` when the stored value is truthy (a non-empty string). -/
def signStage (env : Env) (st : DriverState) (pre : List Message)
    (calls : List CallTag) (m : Message) (v : Values) : RunResult :=
  let sig := env.sign ⟨v.txId, env.chainId, v.chain, v.sender, v.recipient, v.encodedData⟩
  let st' : DriverState := { st with signatures := mset st.signatures v.txId sig }
  let mOut : Message :=
    { m with
      type := "MESSAGE:SIGNED"
      author := env.nodePublicKey
      signer := some env.signerAddress
      signature := some sig }
  if sig = "" then ⟨st', pre, calls ++ [CallTag.signCall]⟩
  else ⟨st', pre ++ [mOut], calls ++ [CallTag.signCall]⟩

/-- `DriverBase.processMessageRequest` of `src/drivers/DriverBase.ts`
(the variant with populate and feature stages), translated line by line:
guards, cached-signature replay, the `"locked"` sentinel, repopulation
from chain, validation, the missing destination driver penalty, the
feature stage, and signing. -/
def processMessageRequest (env : Env) (st : DriverState) (message : Message) : RunResult :=
  match message.transactionHash with
  | none => ⟨st, [], []⟩
  | some _txh =>
  match message.values with
  | none => ⟨st, [], []⟩
  | some v =>
    match mget st.signatures v.txId with
    | some s =>
      if s = "locked" then ⟨st, [], []⟩
      else
        let reply : Option String :=
          match mget st.featureReplies v.txId with
          | some fr => some fr
          | none => message.featureReply
        let mOut : Message :=
          { message with
            type := "MESSAGE:SIGNED"
            author := env.nodePublicKey
            signature := some s
            signer := some env.signerAddress
            featureReply := reply }
        ⟨st, [mOut], []⟩
    | none =>
      let st1 : DriverState := { st with signatures := mset st.signatures v.txId "locked" }
      let destChainId := v.chain
      match env.populate message with
      | none => ⟨st1, [], [CallTag.populateCall]⟩
      | some m1 =>
        if m1.values = none ∨ m1.transactionHash = none then
          ⟨st1, [], [CallTag.populateCall]⟩
        else
          match m1.values with
          | none => ⟨st1, [], [CallTag.populateCall]⟩
          | some v1 =>
            let res := env.isValid st1.signatures m1
            let st2 : DriverState := { st1 with signatures := res.1 }
            if res.2 then
              if ¬ env.hasDriver destChainId then
                let mPen : Message :=
                  { m1 with type := "PENALTY:CHAINMISS", author := env.nodePublicKey }
                ⟨st2, [mPen], [CallTag.populateCall, CallTag.validCall]⟩
              else
                match m1.featureId with
                | some fid =>
                  let mStart : Message :=
                    { m1 with type := "FEATURE:START", author := env.nodePublicKey }
                  (match processFeatures env mStart fid with
                  | none =>
                    let mFail : Message :=
                      { mStart with type := "FEATURE:FAILED", author := env.nodePublicKey }
                    ⟨st2, [mStart, mFail],
                      [CallTag.populateCall, CallTag.validCall, CallTag.featureCall]⟩
                  | some m2 =>
                    if m2.transactionHash = none ∨ m2.values = none ∨ m2.featureFailed = some true then
                      let mFail : Message :=
                        { m2 with type := "FEATURE:FAILED", author := env.nodePublicKey }
                      ⟨st2, [mStart, mFail],
                        [CallTag.populateCall, CallTag.validCall, CallTag.featureCall]⟩
                    else
                      match m2.values with
                      | none =>
                        ⟨st2, [mStart],
                          [CallTag.populateCall, CallTag.validCall, CallTag.featureCall]⟩
                      | some v2 =>
                        let st3 : DriverState :=
                          match m2.featureReply with
                          | some r =>
                            { st2 with featureReplies := mset st2.featureReplies v2.txId r }
                          | none => st2
                        let mComp : Message :=
                          { m2 with type := "FEATURE:COMPLETED", author := env.nodePublicKey }
                        signStage env st3 [mStart, mComp]
                          [CallTag.populateCall, CallTag.validCall, CallTag.featureCall] mComp v2)
                | none =>
                  signStage env st2 [] [CallTag.populateCall, CallTag.validCall] m1 v1
            else
              let mInv : Message :=
                { m1 with type := "MESSAGE:INVALID", author := env.nodePublicKey }
              ⟨st2, [mInv], [CallTag.populateCall, CallTag.validCall]⟩

/-- Environment of the retry-counting variant of `DriverBase` (the variant
without populate / feature stages).  Its `isMessageValid` call goes through
`vladiator.drivers[message.source]`, an arbitrary driver, so it is an
abstract boolean oracle here. -/
structure Env2 where
  nodePublicKey : String
  signerAddress : String
  chainId : Nat
  hasDriver : Nat → Bool
  isValid : Message → Bool
  sign : SignArgs → String

/-- `processMessageRequest` of the retry-counting variant of `DriverBase`:
guards, cached replay, the `"locked"` sentinel, the per-`txId` retry
counter with its `> 3` cutoff, validation and signing.  There is no
populate and no feature stage in this variant, and the missing destination
driver case only logs. -/
def processMessageRequestV2 (env : Env2) (st : DriverState) (message : Message) : RunResult :=
  match message.transactionHash with
  | none => ⟨st, [], []⟩
  | some _txh =>
  match message.values with
  | none => ⟨st, [], []⟩
  | some v =>
    match mget st.signatures v.txId with
    | some s =>
      if s = "locked" then ⟨st, [], []⟩
      else
        let mOut : Message :=
          { message with
            type := "MESSAGE:SIGNED"
            author := env.nodePublicKey
            signer := some env.signerAddress
            signature := some s }
        ⟨st, [mOut], []⟩
    | none =>
      let n := (mget st.retries v.txId).getD 0 + 1
      let st1 : DriverState := { st with retries := mset st.retries v.txId n }
      if n > 3 then ⟨st1, [], []⟩
      else
        let st2 : DriverState := { st1 with signatures := mset st1.signatures v.txId "locked" }
        if env.isValid message then
          if ¬ env.hasDriver v.chain then ⟨st2, [], [CallTag.validCall]⟩
          else
            let sig := env.sign ⟨v.txId, env.chainId, v.chain, v.sender, v.recipient, v.encodedData⟩
            let st3 : DriverState := { st2 with signatures := mset st2.signatures v.txId sig }
            let mOut : Message :=
              { message with
                type := "MESSAGE:SIGNED"
                author := env.nodePublicKey
                signer := some env.signerAddress
                signature := some sig }
            if sig = "" then ⟨st3, [], [CallTag.validCall, CallTag.signCall]⟩
            else ⟨st3, [mOut], [CallTag.validCall, CallTag.signCall]⟩
        else
          let mInv : Message :=
            { message with type := "MESSAGE:INVALID", author := env.nodePublicKey }
          ⟨st2, [mInv], [CallTag.validCall]⟩

/-- A raw EVM event log as seen in a transaction receipt
(`txnReceipt.logs[x]`): emitting address, topic list, and the (abstract)
data payload handed to `decodeEventLog`. -/
structure EvmLog where
  address : String
  topics : List String
  dataField : String
deriving DecidableEq, Repr

/-- An EVM transaction receipt as consumed by `DriverEVM`. -/
structure EvmReceipt where
  transactionHash : String
  confirmations : Nat
  logs : List EvmLog
deriving DecidableEq, Repr

/-- The decoded arguments of a `SendRequested` log
(`chainInterface.parseLog(...).args`). -/
structure ChainArgs where
  txId : String
  sender : String
  recipient : String
  chain : Nat
  express : Bool
  data : String
  confirmations : Nat
deriving DecidableEq, Repr

/-- External collaborators of `DriverEVM`: the RPC provider
(`waitForTransaction` / `getTransactionReceipt`, `none` = the call threw),
the ethers log parsing and event decoding primitives, the chain registry
entry (`getChainConfig(chainId).message`, `none` = missing, which throws),
and the connected contract address. -/
structure EvmEnv where
  waitForTransaction : String → Nat → Option EvmReceipt
  getTransactionReceipt : String → Option EvmReceipt
  parseLog : EvmLog → Option ChainArgs
  idHash : String → String
  decodeFeature : String → Nat × String
  decodeMessage : String → Values
  contractAddress : String
  chainConfigMessage : Option String

/-- The per-log match test of `DriverEVM.isMessageValid` (the body of its
`for` loop over `txnReceipt.logs`): logs of other addresses are skipped,
a `parseLog` throw (`'no matching event'`) is swallowed, and a log is a
match when every decoded argument agrees with the peer-claimed `values`. -/
def evmLogMatches (e : EvmEnv) (msgAddr : String) (rc : EvmReceipt) (txh : String)
    (v : Values) (l : EvmLog) : Bool :=
  if l.address.toLower = e.contractAddress.toLower then
    match e.parseLog l with
    | none => false
    | some a =>
      l.address.toLower = msgAddr.toLower &&
      rc.transactionHash.toLower = txh.toLower &&
      a.sender.toLower = v.sender.toLower &&
      a.recipient.toLower = v.recipient.toLower &&
      a.express = v.express &&
      a.data = v.encodedData &&
      a.confirmations = v.confirmations &&
      a.txId = v.txId &&
      a.chain = v.chain
  else false

/-- `DriverEVM.isMessageValid`: wait for the transaction with the required
number of confirmations; on a short receipt delete the signature-cache
entry for the `txId` and report invalid; otherwise scan the receipt's logs
for an exact match.  Any thrown error reports invalid. -/
def evmIsMessageValid (e : EvmEnv) (sigs : List (String × String)) (m : Message) :
    List (String × String) × Bool :=
  match m.transactionHash with
  | none => (sigs, false)
  | some txh =>
  match m.values with
  | none => (sigs, false)
  | some v =>
    match e.waitForTransaction txh v.confirmations with
    | none => (sigs, false)
    | some rc =>
      if rc.confirmations < v.confirmations then (mdel sigs v.txId, false)
      else
        match e.chainConfigMessage with
        | none => (sigs, false)
        | some msgAddr => (sigs, rc.logs.any (evmLogMatches e msgAddr rc txh v))

/-- `DriverEVM.populateMessage`: fetch the receipt of
`message.transactionHash` (`none` = the RPC call threw), locate the first
log whose topic 0 is the `SendMessageWithFeature` hash and the first whose
topic 0 is the `SendRequested` hash, and overwrite the feature slots and
`values` from those logs when found. -/
def populateMessageEVM (e : EvmEnv) (m : Message) : Option Message :=
  match m.transactionHash with
  | none => none
  | some txh =>
  match e.getTransactionReceipt txh with
  | none => none
  | some rc =>
    let featureTopic := e.idHash "SendMessageWithFeature(uint256,uint256,uint32,bytes)"
    let messageTopic := e.idHash "SendRequested(uint256,address,address,uint256,bool,bytes,uint16)"
    let featureLog := rc.logs.find? (fun l => l.topics.head? = some featureTopic)
    let messageLog := rc.logs.find? (fun l => l.topics.head? = some messageTopic)
    let m1 : Message :=
      match featureLog with
      | some l =>
        { m with
          featureId := some (e.decodeFeature l.dataField).1
          featureData := some (e.decodeFeature l.dataField).2 }
      | none => m
    let m2 : Message :=
      match messageLog with
      | some l => { m1 with values := some (e.decodeMessage l.dataField) }
      | none => m1
    some m2

/-! ### Canonical signing (`DriverBase.signTransactionData`)

The ABI encoding performed by `ethers.utils.defaultAbiCoder.encode` is
reproduced for the value kinds the call site uses: `uint256`, `address`
and `bytes`.  Keccak-256 and the secp256k1 personal-message signature are
primitives of the ethers library, so they enter as abstract functions of a
crypto environment; everything the repository itself determines — the
tuple, its encoding and the composition — is concrete. -/

/-- Big-endian 32-byte word of `n % 2^256` (one head slot of the ABI
encoding). -/
def word256 (n : Nat) : List Nat :=
  (List.range 32).map (fun i => n / 256 ^ (31 - i) % 256)

/-- Zero-pad a byte string on the right to a multiple of 32 bytes. -/
def padRight32 (bs : List Nat) : List Nat :=
  bs ++ List.replicate ((32 - bs.length % 32) % 32) 0

/-- An ABI value of one of the three kinds used by
`signTransactionData`. -/
inductive AbiValue where
  | uint256 (n : Nat)
  | address (a : Nat)
  | bytes (bs : List Nat)
deriving DecidableEq, Repr

/-- Whether an ABI value is dynamically sized (encoded in the tail, with
an offset in the head). -/
def AbiValue.isDynamic : AbiValue → Bool
  | .bytes _ => true
  | _ => false

/-- Head slot of a statically sized ABI value. -/
def AbiValue.encStatic : AbiValue → List Nat
  | .uint256 n => word256 n
  | .address a => word256 a
  | .bytes _ => []

/-- Tail of a dynamically sized ABI value: its length word followed by the
right-padded payload. -/
def AbiValue.encTail : AbiValue → List Nat
  | .bytes bs => word256 bs.length ++ padRight32 bs
  | _ => []

/-- Head/tail encoder: each static value contributes its 32-byte word to
the head; each dynamic value contributes a 32-byte offset word (counted
from the start of the whole encoding) and appends its tail. -/
def encHeads : List AbiValue → Nat → List Nat × List Nat
  | [], _ => ([], [])
  | val :: vs, offset =>
    if val.isDynamic then
      let t := val.encTail
      let r := encHeads vs (offset + t.length)
      (word256 offset ++ r.1, t ++ r.2)
    else
      let r := encHeads vs offset
      (val.encStatic ++ r.1, r.2)

/-- `defaultAbiCoder.encode` for a flat list of the supported value kinds:
heads (with offsets starting past all head slots) followed by tails. -/
def abiEncode (vs : List AbiValue) : List Nat :=
  let r := encHeads vs (32 * vs.length)
  r.1 ++ r.2

/-- Argument record of `signTransactionData`; numeric fields are
`BigNumberish` in TS, addresses are 160-bit numbers, `data` is a byte
string. -/
structure TxData where
  txId : Nat
  sourceChainId : Nat
  destChainId : Nat
  sender : Nat
  recipient : Nat
  data : List Nat
deriving DecidableEq, Repr

/-- The ethers primitives used by `signTransactionData`: `keccak256` and
`wallet.signMessage` (EIP-191 personal-message signing under a private
key). -/
structure CryptoEnv where
  keccak256 : List Nat → List Nat
  personalSign : String → List Nat → List Nat

/-- `DriverBase.signTransactionData`: ABI-encode the tuple
`(uint256 txId, uint256 sourceChainId, uint256 destChainId,
address sender, address recipient, bytes data)`, keccak-256 the encoding,
and personal-message-sign the 32-byte digest with the node key. -/
def signTransactionData (c : CryptoEnv) (nodeKey : String) (txData : TxData) : List Nat :=
  let messageHash := abiEncode
    [AbiValue.uint256 txData.txId, AbiValue.uint256 txData.sourceChainId,
     AbiValue.uint256 txData.destChainId, AbiValue.address txData.sender,
     AbiValue.address txData.recipient, AbiValue.bytes txData.data]
  c.personalSign nodeKey (c.keccak256 messageHash)

/-- The canonical signing payload as the spec words it: the six 32-byte
head words (the `bytes` head being the offset `0xC0` = 192) followed by
the length word and right-padded payload of `data`. -/
def canonicalSigningPayload (txData : TxData) : List Nat :=
  word256 txData.txId ++ word256 txData.sourceChainId ++ word256 txData.destChainId ++
  word256 txData.sender ++ word256 txData.recipient ++ word256 192 ++
  word256 txData.data.length ++ padRight32 txData.data

/-! ### Gossip ingress de-duplication (`ServiceP2P.handleMessage`) -/

/-- One entry of the recent-gossip window (`RecentMessage` in
`ServiceP2P.ts`).  Timestamps are milliseconds (`Date.now()`), modelled as
integers. -/
structure RecentMessage where
  timestamp : Int
  author : String
  transactionHash : String
  type : String
deriving DecidableEq, Repr

/-- The sliding cleanup at the top of `handleMessage`: keep entries whose
age is at most 5000 ms. -/
def cleanupRecent (now : Int) (rs : List RecentMessage) : List RecentMessage :=
  rs.filter (fun r => now - r.timestamp ≤ 5000)

/-- The duplicate test of `handleMessage` over the (cleaned) window. -/
def isDuplicateP2P (now : Int) (topic author txHash : String)
    (rs : List RecentMessage) : Bool :=
  rs.any (fun r =>
    r.type = topic && r.author = author && r.transactionHash = txHash &&
    (topic = "MESSAGE:SIGNED" || (topic = "MESSAGE:REQUEST" && now - r.timestamp ≤ 5000)))

/-- `ServiceP2P.handleMessage`: clean the window, and for `MESSAGE:SIGNED`
/ `MESSAGE:REQUEST` frames drop duplicates and record the frame; the
returned boolean is whether the frame was handed to the message handler
(the coordinator side). -/
def p2pHandleMessage (now : Int) (topic : String) (m : Message)
    (rs : List RecentMessage) : List RecentMessage × Bool :=
  let txHash := m.transactionHash.getD ""
  let author := m.author
  let cleaned := cleanupRecent now rs
  if topic = "MESSAGE:SIGNED" ∨ topic = "MESSAGE:REQUEST" then
    if isDuplicateP2P now topic author txHash cleaned then (cleaned, false)
    else (cleaned ++ [⟨now, author, txHash, topic⟩], true)
  else (cleaned, true)

/-! ### Orchestrator routing (`Vladiator.handleMessage`) -/

/-- Lookup in the orchestrator's driver table (`this.drivers[chainId]`). -/
def dget (drivers : List (Nat × DriverState)) (chainId : Nat) : Option DriverState :=
  match drivers with
  | [] => none
  | p :: t => if p.1 = chainId then some p.2 else dget t chainId

/-- Driver-table overwrite. -/
def dset (drivers : List (Nat × DriverState)) (chainId : Nat) (st : DriverState) :
    List (Nat × DriverState) :=
  (chainId, st) :: drivers.filter (fun p => ¬ p.1 = chainId)

/-- `Vladiator.handleMessage` after JSON decoding (lines 237-259 of
`Vladiator.ts`), restricted to its effects on the driver table and the
bus: observability sinks (`emit`, Discord, data stream) publish nothing to
the bus.  A frame whose `source` has no driver returns; only a
`MESSAGE:REQUEST` topic enters the coordinator of the source driver.  The
second component is the frames published to the bus. -/
def vladHandleMessage (env : Env) (drivers : List (Nat × DriverState))
    (topic : String) (m : Message) : List (Nat × DriverState) × List Message :=
  match m.source with
  | none => (drivers, [])
  | some src =>
    match dget drivers src with
    | none => (drivers, [])
    | some st =>
      if topic = "MESSAGE:REQUEST" then
        let r := processMessageRequest env st m
        (dset drivers src r.state, r.emitted)
      else (drivers, [])

/-! ### Concrete fixtures used by witnesses and counterexamples -/

/-- A concrete `values` record: txId 42, destination chain 56, two
required confirmations. -/
def vals42 : Values := ⟨"42", "0xSender", "0xRecip", 56, false, "0xdata", 2⟩

/-- A concrete inbound `MESSAGE:REQUEST` frame. -/
def msg42 : Message :=
  { type := "MESSAGE:REQUEST", author := "peer", source := some 1,
    transactionHash := some "0xabc", values := some vals42 }

/-- The same request carrying a feature id. -/
def msg42F : Message := { msg42 with featureId := some 7 }

/-- Empty driver caches. -/
def st0 : DriverState := ⟨[], [], []⟩

/-- Caches holding a finalized signature and a feature reply for txId 42. -/
def stSigned : DriverState := ⟨[("42", "0xcafe")], [("42", "0xreply")], []⟩

/-- Caches whose retry counter for txId 42 already stands at 3. -/
def stRetried : DriverState := ⟨[], [], [("42", 3)]⟩

/-- A benign environment: population echoes the message, validation
accepts and leaves the cache alone, all destination drivers exist, the
feature registry is empty, signing returns a fixed non-empty string. -/
def envOk : Env :=
  ⟨"PK", "SA", 1, fun _ => true, fun m => some m, fun sigs _ => (sigs, true),
    fun _ => none, fun _ => "0xsig"⟩

/-- Same as `envOk` except `populateMessage` always throws. -/
def envPopFail : Env := { envOk with populate := fun _ => none }

/-- A benign environment for the retry-counting variant. -/
def env2Ok : Env2 := ⟨"PK", "SA", 1, fun _ => true, fun _ => true, fun _ => "0xsig"⟩

/-- An EVM environment whose receipts have five confirmations and no
logs. -/
def eenvBase : EvmEnv :=
  ⟨fun _ _ => some ⟨"0xabc", 5, []⟩, fun _ => some ⟨"0xabc", 5, []⟩,
    fun _ => none, fun s => s, fun _ => (0, ""), fun _ => vals42, "0xC", some "0xC"⟩

/-- An EVM environment whose confirmation wait comes back short (zero
confirmations observed). -/
def eenvShort : EvmEnv := { eenvBase with waitForTransaction := fun _ _ => some ⟨"0xabc", 0, []⟩ }

/-- `envOk` with validation running the modelled `DriverEVM.isMessageValid`
against the short-receipt provider. -/
def envShort : Env := { envOk with isValid := evmIsMessageValid eenvShort }

/-- Crypto primitives instantiated by identities (enough to witness the
structural signing theorem). -/
def cEnvId : CryptoEnv := ⟨fun bs => bs, fun _ bs => bs⟩

/-- A concrete signing tuple. -/
def tdEx : TxData := ⟨42, 1, 56, 43690, 48059, [1, 2, 3]⟩

/-- A one-entry orchestrator driver table serving only chain 1. -/
def driversW : List (Nat × DriverState) := [(1, st0)]

/-- A frame whose source chain 999 has no driver (and is not the
heartbeat sentinel 1010101010). -/
def mUnknownSource : Message := { msg42 with source := some 999 }

/-! ## Theorems -/

theorem mget_mdel_self {β : Type} (m : List (String × β)) (k : String) :
    mget (mdel m k) k = none := by
  induction m with
  | nil => rfl
  | cons p t ih =>
    by_cases hpk : p.1 = k
    · simpa [mdel, hpk] using ih
    · simpa [mdel, hpk, mget] using ih

theorem mget_mdel_ne {β : Type} (m : List (String × β)) (k k' : String)
    (h : k' ≠ k) : mget (mdel m k) k' = mget m k' := by
  induction m with
  | nil => rfl
  | cons p t ih =>
    by_cases hpk : p.1 = k
    · have hk : ¬ k = k' := fun e => h e.symm
      simpa [mdel, hpk, mget, hk] using ih
    · by_cases hp : p.1 = k'
      · simp [mdel, hpk, mget, hp, h]
      · simpa [mdel, hpk, mget, hp] using ih

theorem mget_mset_self {β : Type} (m : List (String × β)) (k : String) (v : β) :
    mget (mset m k v) k = some v := by
  simp [mget, mset]

theorem mget_mset_ne {β : Type} (m : List (String × β)) (k k' : String) (v : β)
    (h : k' ≠ k) : mget (mset m k v) k' = mget m k' := by
  simp only [mset, mget, if_neg (fun e : k = k' => h e.symm)]
  exact mget_mdel_ne m k k' h

/-- C10: a message with an absent `transactionHash` or absent `values` is
a complete no-op for both coordinator variants: caches (signature,
feature-reply, retry) unchanged, nothing published, no external calls. -/
theorem claim_C10 (env : Env) (env2 : Env2) (st : DriverState) (m : Message)
    (h : m.transactionHash = none ∨ m.values = none) :
    processMessageRequest env st m = ⟨st, [], []⟩ ∧
    processMessageRequestV2 env2 st m = ⟨st, [], []⟩ := by
  cases hTx : m.transactionHash with
  | none => exact ⟨by simp [processMessageRequest, hTx], by simp [processMessageRequestV2, hTx]⟩
  | some txh =>
    have hV : m.values = none := by
      rcases h with h | h
      · rw [hTx] at h; cases h
      · exact h
    exact ⟨by simp [processMessageRequest, hTx, hV],
           by simp [processMessageRequestV2, hTx, hV]⟩

/-- C10 witness: the guard theorem applied to the concrete request with
its `values` removed. -/
theorem claim_C10_witness :
    ({ msg42 with values := none } : Message).transactionHash = none ∨
      ({ msg42 with values := none } : Message).values = none ∧
    processMessageRequest envOk st0 { msg42 with values := none } = ⟨st0, [], []⟩ ∧
    processMessageRequestV2 env2Ok st0 { msg42 with values := none } = ⟨st0, [], []⟩ := by
  have h := claim_C10 envOk env2Ok st0 { msg42 with values := none } (Or.inr rfl)
  exact Or.inr ⟨rfl, h.1, h.2⟩

/-- C1: once a non-sentinel signature is cached for a `txId`, any later
request for that `txId` re-emits exactly one `MESSAGE:SIGNED` authored by
this node carrying exactly the cached signature (and the cached
`featureReply` when one exists), with the caches untouched and with no
call to `populateMessage`, `isMessageValid`, feature processing, or
`signTransactionData`. -/
theorem claim_C1 (env : Env) (st : DriverState) (m : Message) (txh : String)
    (v : Values) (s : String)
    (hTx : m.transactionHash = some txh) (hV : m.values = some v)
    (hSig : mget st.signatures v.txId = some s) (hLock : s ≠ "locked") :
    processMessageRequest env st m =
      ⟨st,
        [{ m with
            type := "MESSAGE:SIGNED"
            author := env.nodePublicKey
            signature := some s
            signer := some env.signerAddress
            featureReply :=
              match mget st.featureReplies v.txId with
              | some fr => some fr
              | none => m.featureReply }],
        []⟩ := by
  simp [processMessageRequest, hTx, hV, hSig, hLock]

/-- C1 witness: replay of the cached signature `"0xcafe"` and cached
feature reply `"0xreply"` for txId 42. -/
theorem claim_C1_witness :
    msg42.transactionHash = some "0xabc" ∧ msg42.values = some vals42 ∧
    mget stSigned.signatures vals42.txId = some "0xcafe" ∧ "0xcafe" ≠ "locked" ∧
    processMessageRequest envOk stSigned msg42 =
      ⟨stSigned,
        [{ msg42 with
            type := "MESSAGE:SIGNED"
            author := envOk.nodePublicKey
            signature := some "0xcafe"
            signer := some envOk.signerAddress
            featureReply :=
              match mget stSigned.featureReplies vals42.txId with
              | some fr => some fr
              | none => msg42.featureReply }],
        []⟩ :=
  ⟨rfl, rfl, by decide, by decide,
    claim_C1 envOk stSigned msg42 "0xabc" vals42 "0xcafe" rfl rfl (by decide) (by decide)⟩

/-- C8: in the retry-counting coordinator, a request that finds no
signature-cache entry always increments the per-`txId` retry counter, and
when the counter already stands at 3 or more the request is silently
dropped: the only state change is the counter bump, nothing is published,
and no external (RPC or signer) call happens — so the fourth and all later
acceptance attempts are no-ops beyond the counter. -/
theorem claim_C8 (env : Env2) (st : DriverState) (m : Message) (txh : String)
    (v : Values)
    (hTx : m.transactionHash = some txh) (hV : m.values = some v)
    (hMiss : mget st.signatures v.txId = none) :
    (processMessageRequestV2 env st m).state.retries =
      mset st.retries v.txId ((mget st.retries v.txId).getD 0 + 1) ∧
    (3 ≤ (mget st.retries v.txId).getD 0 →
      processMessageRequestV2 env st m =
        ⟨{ st with retries := mset st.retries v.txId ((mget st.retries v.txId).getD 0 + 1) },
          [], []⟩) := by
  constructor
  · simp only [processMessageRequestV2, hTx, hV, hMiss]
    repeat (first | rfl | split)
  · intro h3
    have hGt : (mget st.retries v.txId).getD 0 + 1 > 3 := by omega
    simp [processMessageRequestV2, hTx, hV, hMiss, hGt]

/-- C8 witness: with the counter for txId 42 already at 3, the fourth
acceptance attempt only bumps the counter to 4 and emits nothing and
calls nothing. -/
theorem claim_C8_witness :
    msg42.transactionHash = some "0xabc" ∧ msg42.values = some vals42 ∧
    mget stRetried.signatures vals42.txId = none ∧
    3 ≤ (mget stRetried.retries vals42.txId).getD 0 ∧
    processMessageRequestV2 env2Ok stRetried msg42 =
      ⟨{ stRetried with
          retries := mset stRetried.retries vals42.txId
            ((mget stRetried.retries vals42.txId).getD 0 + 1) }, [], []⟩ :=
  ⟨rfl, rfl, by decide, by decide,
    (claim_C8 env2Ok stRetried msg42 "0xabc" vals42 rfl rfl (by decide)).2 (by decide)⟩

/-- C2: `signTransactionData` personal-message-signs, with the node key,
the keccak-256 digest of the ABI encoding of
`(uint256 txId, uint256 sourceChainId, uint256 destChainId,
address sender, address recipient, bytes data)` — whose byte layout is
exactly the canonical payload: six head words (with the `bytes` offset
192) then the length word and right-padded data — and for a fixed key and
a fixed tuple the result is byte-identical across invocations. -/
theorem claim_C2 (c : CryptoEnv) (nodeKey : String) (td td' : TxData)
    (h : td = td') :
    signTransactionData c nodeKey td =
      c.personalSign nodeKey (c.keccak256 (canonicalSigningPayload td)) ∧
    signTransactionData c nodeKey td = signTransactionData c nodeKey td' := by
  subst h
  refine ⟨?_, rfl⟩
  simp [signTransactionData, abiEncode, encHeads, AbiValue.isDynamic,
    AbiValue.encStatic, AbiValue.encTail, canonicalSigningPayload, List.append_assoc]

/-- C2 witness: the canonical layout and determinism at a concrete signing
tuple and concrete crypto primitives. -/
theorem claim_C2_witness :
    tdEx = tdEx ∧
    (signTransactionData cEnvId "key" tdEx =
      cEnvId.personalSign "key" (cEnvId.keccak256 (canonicalSigningPayload tdEx)) ∧
     signTransactionData cEnvId "key" tdEx = signTransactionData cEnvId "key" tdEx) :=
  ⟨rfl, claim_C2 cEnvId "key" tdEx tdEx rfl⟩

/-- C4 counterexample: when `populateMessage` throws, the signature-cache
entry for txId 42 is NOT abandoned — it remains `"locked"` — and a later
request for the same txId is swallowed (no emission, no external call)
instead of re-entering the state machine. -/
theorem claim_C4_counterexample :
    mget (processMessageRequest envPopFail st0 msg42).state.signatures "42" = some "locked" ∧
    processMessageRequest envPopFail (processMessageRequest envPopFail st0 msg42).state msg42 =
      ⟨(processMessageRequest envPopFail st0 msg42).state, [], []⟩ :=
  ⟨rfl, rfl⟩

/-- C4 (amended): when `populateMessage` throws during
`processMessageRequest`, the coordinator returns with no emission — but it
does not release the lock: the signature-cache entry stays `"locked"`, so
every later request for the same txId is treated as in-progress and
dropped without emission or external calls. -/
theorem claim_C4 (env : Env) (st : DriverState) (m : Message) (txh : String)
    (v : Values)
    (hTx : m.transactionHash = some txh) (hV : m.values = some v)
    (hMiss : mget st.signatures v.txId = none) (hPop : env.populate m = none) :
    processMessageRequest env st m =
      ⟨{ st with signatures := mset st.signatures v.txId "locked" }, [],
        [CallTag.populateCall]⟩ ∧
    ∀ (m2 : Message) (txh2 : String) (v2 : Values),
      m2.transactionHash = some txh2 → m2.values = some v2 → v2.txId = v.txId →
      processMessageRequest env { st with signatures := mset st.signatures v.txId "locked" } m2 =
        ⟨{ st with signatures := mset st.signatures v.txId "locked" }, [], []⟩ := by
  constructor
  · simp [processMessageRequest, hTx, hV, hMiss, hPop]
  · intro m2 txh2 v2 hTx2 hV2 hId
    have hLocked : mget (mset st.signatures v.txId "locked") v2.txId = some "locked" := by
      rw [hId]; exact mget_mset_self st.signatures v.txId "locked"
    simp [processMessageRequest, hTx2, hV2, hLocked]

/-- C4 witness: the amended behavior at a concrete request against a
provider that always throws in `populateMessage`. -/
theorem claim_C4_witness :
    envPopFail.populate msg42 = none ∧ mget st0.signatures vals42.txId = none ∧
    processMessageRequest envPopFail st0 msg42 =
      ⟨{ st0 with signatures := mset st0.signatures vals42.txId "locked" }, [],
        [CallTag.populateCall]⟩ ∧
    processMessageRequest envPopFail
        { st0 with signatures := mset st0.signatures vals42.txId "locked" } msg42 =
      ⟨{ st0 with signatures := mset st0.signatures vals42.txId "locked" }, [], []⟩ :=
  ⟨rfl, rfl,
    (claim_C4 envPopFail st0 msg42 "0xabc" vals42 rfl rfl rfl rfl).1,
    (claim_C4 envPopFail st0 msg42 "0xabc" vals42 rfl rfl rfl rfl).2 msg42 "0xabc" vals42
      rfl rfl rfl⟩

/-- C5 counterexample: a receipt with no `SendRequested` log does not make
`populateMessage` return absent `values` — the peer-supplied `values` come
back untouched. -/
theorem claim_C5_counterexample :
    eenvBase.getTransactionReceipt "0xabc" = some ⟨"0xabc", 5, []⟩ ∧
    (⟨"0xabc", 5, []⟩ : EvmReceipt).logs.find? (fun l => l.topics.head? =
      some (eenvBase.idHash "SendRequested(uint256,address,address,uint256,bool,bytes,uint16)")) = none ∧
    populateMessageEVM eenvBase msg42 = some msg42 ∧
    msg42.values = some vals42 :=
  ⟨rfl, rfl, rfl, rfl⟩

/-- C5 (amended): `populateMessage` overwrites `values` from the decoded
`SendRequested` log whenever the receipt contains one (peer-supplied
`values` are then discarded); when the receipt contains none, the message
is returned with its `values` unchanged — the peer-supplied record is
retained and rejection is left to `isMessageValid`. -/
theorem claim_C5 (e : EvmEnv) (m : Message) (txh : String) (rc : EvmReceipt)
    (hTx : m.transactionHash = some txh)
    (hRc : e.getTransactionReceipt txh = some rc) :
    (∀ l, rc.logs.find? (fun l' => l'.topics.head? =
        some (e.idHash "SendRequested(uint256,address,address,uint256,bool,bytes,uint16)")) = some l →
      ∃ m', populateMessageEVM e m = some m' ∧
        m'.values = some (e.decodeMessage l.dataField)) ∧
    (rc.logs.find? (fun l' => l'.topics.head? =
        some (e.idHash "SendRequested(uint256,address,address,uint256,bool,bytes,uint16)")) = none →
      ∃ m', populateMessageEVM e m = some m' ∧ m'.values = m.values) := by
  constructor
  · intro l hFind
    cases hF : rc.logs.find? (fun l' => l'.topics.head? =
        some (e.idHash "SendMessageWithFeature(uint256,uint256,uint32,bytes)")) with
    | none =>
      refine ⟨{ m with values := some (e.decodeMessage l.dataField) }, ?_, rfl⟩
      simp [populateMessageEVM, hTx, hRc, hF, hFind]
    | some lf =>
      refine ⟨{ m with
        featureId := some (e.decodeFeature lf.dataField).1
        featureData := some (e.decodeFeature lf.dataField).2
        values := some (e.decodeMessage l.dataField) }, ?_, rfl⟩
      simp [populateMessageEVM, hTx, hRc, hF, hFind]
  · intro hFind
    cases hF : rc.logs.find? (fun l' => l'.topics.head? =
        some (e.idHash "SendMessageWithFeature(uint256,uint256,uint32,bytes)")) with
    | none =>
      refine ⟨m, ?_, rfl⟩
      simp [populateMessageEVM, hTx, hRc, hF, hFind]
    | some lf =>
      refine ⟨{ m with
        featureId := some (e.decodeFeature lf.dataField).1
        featureData := some (e.decodeFeature lf.dataField).2 }, ?_, rfl⟩
      simp [populateMessageEVM, hTx, hRc, hF, hFind]

/-- C5 witness: the amended behavior at a receipt with no logs at all. -/
theorem claim_C5_witness :
    msg42.transactionHash = some "0xabc" ∧
    eenvBase.getTransactionReceipt "0xabc" = some ⟨"0xabc", 5, []⟩ ∧
    ((⟨"0xabc", 5, []⟩ : EvmReceipt).logs.find? (fun l' => l'.topics.head? =
      some (eenvBase.idHash "SendRequested(uint256,address,address,uint256,bool,bytes,uint16)")) = none →
      ∃ m', populateMessageEVM eenvBase msg42 = some m' ∧ m'.values = msg42.values) :=
  ⟨rfl, rfl,
    (claim_C5 eenvBase msg42 "0xabc" ⟨"0xabc", 5, []⟩ rfl rfl).2⟩

/-- C6 counterexample: a request whose `featureId` (7) is not in the
(empty) feature registry does NOT yield `FEATURE:FAILED` — the run emits
`FEATURE:START`, `FEATURE:COMPLETED` and then `MESSAGE:SIGNED`. -/
theorem claim_C6_counterexample :
    msg42F.featureId = some 7 ∧ envOk.features 7 = none ∧
    (processMessageRequest envOk st0 msg42F).emitted.map Message.type =
      ["FEATURE:START", "FEATURE:COMPLETED", "MESSAGE:SIGNED"] :=
  ⟨rfl, rfl, rfl⟩

/-- C6 (amended): when the `featureId` of an otherwise valid inbound
request is not a key of the loaded feature registry, `processFeatures`
returns the message unchanged without setting `featureFailed`, and the
coordinator publishes `FEATURE:START`, `FEATURE:COMPLETED` and
`MESSAGE:SIGNED` — no `FEATURE:FAILED` frame is produced.
(`FEATURE:FAILED` is reserved for a feature whose `process` throws or
reports `featureFailed = true`.) -/
theorem claim_C6 (env : Env) (st : DriverState) (m m1 : Message)
    (txh txh1 : String) (v v1 : Values) (fid : Nat)
    (sigs2 : List (String × String))
    (hTx : m.transactionHash = some txh) (hV : m.values = some v)
    (hMiss : mget st.signatures v.txId = none)
    (hPop : env.populate m = some m1)
    (hTx1 : m1.transactionHash = some txh1) (hV1 : m1.values = some v1)
    (hValid : env.isValid (mset st.signatures v.txId "locked") m1 = (sigs2, true))
    (hDrv : env.hasDriver v.chain = true)
    (hFid : m1.featureId = some fid)
    (hUnknown : env.features fid = none)
    (hFF : m1.featureFailed ≠ some true)
    (hSig : env.sign ⟨v1.txId, env.chainId, v1.chain, v1.sender, v1.recipient,
      v1.encodedData⟩ ≠ "") :
    (processMessageRequest env st m).emitted.map Message.type =
      ["FEATURE:START", "FEATURE:COMPLETED", "MESSAGE:SIGNED"] ∧
    ¬ "FEATURE:FAILED" ∈ (processMessageRequest env st m).emitted.map Message.type := by
  have hMain : (processMessageRequest env st m).emitted.map Message.type =
      ["FEATURE:START", "FEATURE:COMPLETED", "MESSAGE:SIGNED"] := by
    simp [processMessageRequest, processFeatures, signStage, hTx, hV, hMiss, hPop,
      hTx1, hV1, hValid, hDrv, hFid, hUnknown, hFF, hSig]
  refine ⟨hMain, ?_⟩
  rw [hMain]
  decide

/-- C6 witness: the amended behavior at the concrete request with
`featureId = 7` against the empty registry. -/
theorem claim_C6_witness :
    msg42F.featureId = some 7 ∧ envOk.features 7 = none ∧
    (processMessageRequest envOk st0 msg42F).emitted.map Message.type =
      ["FEATURE:START", "FEATURE:COMPLETED", "MESSAGE:SIGNED"] ∧
    ¬ "FEATURE:FAILED" ∈ (processMessageRequest envOk st0 msg42F).emitted.map Message.type := by
  have h := claim_C6 envOk st0 msg42F msg42F "0xabc" "0xabc" vals42 vals42 7
    (mset st0.signatures vals42.txId "locked")
    rfl rfl rfl rfl rfl rfl rfl rfl rfl rfl (by decide) (by decide)
  exact ⟨rfl, rfl, h.1, h.2⟩

/-- Helper: the confirmation-shortfall branch of
`DriverEVM.isMessageValid` deletes the signature-cache entry of the txId
and reports invalid. -/
theorem evmIsMessageValid_shortfall (e : EvmEnv) (sigs : List (String × String))
    (m : Message) (txh : String) (v : Values) (rc : EvmReceipt)
    (hTx : m.transactionHash = some txh) (hV : m.values = some v)
    (hWait : e.waitForTransaction txh v.confirmations = some rc)
    (hShort : rc.confirmations < v.confirmations) :
    evmIsMessageValid e sigs m = (mdel sigs v.txId, false) := by
  simp [evmIsMessageValid, hTx, hV, hWait, hShort]

/-- C7 counterexample: a confirmation shortfall does release the lock, but
the abort is not silent — a `MESSAGE:INVALID` frame is published. -/
theorem claim_C7_counterexample :
    eenvShort.waitForTransaction "0xabc" vals42.confirmations = some ⟨"0xabc", 0, []⟩ ∧
    (⟨"0xabc", 0, []⟩ : EvmReceipt).confirmations < vals42.confirmations ∧
    (processMessageRequest envShort st0 msg42).emitted =
      [{ msg42 with type := "MESSAGE:INVALID", author := "PK" }] ∧
    mget (processMessageRequest envShort st0 msg42).state.signatures "42" = none :=
  ⟨rfl, by decide, rfl, rfl⟩

/-- C7 (amended): when the confirmation wait comes back short of the
required threshold, the coordinator does release the lock — the
signature-cache entry of the txId is deleted — and does not sign, but it
does not abort silently: it publishes a `MESSAGE:INVALID` frame for the
request. -/
theorem claim_C7 (e : EvmEnv) (env : Env) (st : DriverState) (m m1 : Message)
    (txh txh1 : String) (v v1 : Values) (rc : EvmReceipt)
    (hEnv : env.isValid = evmIsMessageValid e)
    (hTx : m.transactionHash = some txh) (hV : m.values = some v)
    (hMiss : mget st.signatures v.txId = none)
    (hPop : env.populate m = some m1)
    (hTx1 : m1.transactionHash = some txh1) (hV1 : m1.values = some v1)
    (hWait : e.waitForTransaction txh1 v1.confirmations = some rc)
    (hShort : rc.confirmations < v1.confirmations) :
    processMessageRequest env st m =
      ⟨{ st with signatures := mdel (mset st.signatures v.txId "locked") v1.txId },
        [{ m1 with type := "MESSAGE:INVALID", author := env.nodePublicKey }],
        [CallTag.populateCall, CallTag.validCall]⟩ ∧
    mget (processMessageRequest env st m).state.signatures v1.txId = none := by
  have hval := evmIsMessageValid_shortfall e (mset st.signatures v.txId "locked") m1
    txh1 v1 rc hTx1 hV1 hWait hShort
  have hMain : processMessageRequest env st m =
      ⟨{ st with signatures := mdel (mset st.signatures v.txId "locked") v1.txId },
        [{ m1 with type := "MESSAGE:INVALID", author := env.nodePublicKey }],
        [CallTag.populateCall, CallTag.validCall]⟩ := by
    simp [processMessageRequest, hTx, hV, hMiss, hPop, hTx1, hV1, hEnv, hval]
  refine ⟨hMain, ?_⟩
  rw [hMain]
  exact mget_mdel_self (mset st.signatures v.txId "locked") v1.txId

/-- C7 witness: the amended behavior against the short-receipt provider. -/
theorem claim_C7_witness :
    envShort.isValid = evmIsMessageValid eenvShort ∧
    eenvShort.waitForTransaction "0xabc" vals42.confirmations = some ⟨"0xabc", 0, []⟩ ∧
    (⟨"0xabc", 0, []⟩ : EvmReceipt).confirmations < vals42.confirmations ∧
    processMessageRequest envShort st0 msg42 =
      ⟨{ st0 with signatures := mdel (mset st0.signatures vals42.txId "locked") vals42.txId },
        [{ msg42 with type := "MESSAGE:INVALID", author := envShort.nodePublicKey }],
        [CallTag.populateCall, CallTag.validCall]⟩ ∧
    mget (processMessageRequest envShort st0 msg42).state.signatures vals42.txId = none := by
  have h := claim_C7 eenvShort envShort st0 msg42 msg42 "0xabc" "0xabc" vals42 vals42
    ⟨"0xabc", 0, []⟩ rfl rfl rfl rfl rfl rfl rfl rfl (by decide)
  exact ⟨rfl, rfl, by decide, h.1, h.2⟩

/-- C9 counterexample: a `MESSAGE:REQUEST` whose source chain 999 is
neither in the driver table nor the heartbeat sentinel is dropped silently
by the orchestrator — no `PENALTY:CHAINMISS` (no frame at all) is
published. -/
theorem claim_C9_counterexample :
    mUnknownSource.source = some 999 ∧ (999 : Nat) ≠ 1010101010 ∧
    dget driversW 999 = none ∧
    vladHandleMessage envOk driversW "MESSAGE:REQUEST" mUnknownSource = (driversW, []) :=
  ⟨rfl, by decide, rfl, rfl⟩

/-- C9 (amended): for every frame whose source is not a chain id in the
orchestrator's driver table — the heartbeat sentinel 1010101010 included,
which is not special-cased — the orchestrator returns silently: the driver
table is unchanged and nothing is published to the bus.
`PENALTY:CHAINMISS` is only ever produced inside a driver's coordinator,
for a missing destination driver. -/
theorem claim_C9 (env : Env) (drivers : List (Nat × DriverState)) (topic : String)
    (m : Message) (src : Nat)
    (hSrc : m.source = some src) (hNo : dget drivers src = none) :
    vladHandleMessage env drivers topic m = (drivers, []) := by
  simp [vladHandleMessage, hSrc, hNo]

/-- C9 witness: the amended behavior at the concrete unknown-source
frame. -/
theorem claim_C9_witness :
    mUnknownSource.source = some 999 ∧ dget driversW 999 = none ∧
    vladHandleMessage envOk driversW "HEARTBEAT" mUnknownSource = (driversW, []) :=
  ⟨rfl, rfl, claim_C9 envOk driversW "HEARTBEAT" mUnknownSource 999 rfl rfl⟩

/-- C3: on ingress of a `MESSAGE:REQUEST` or `MESSAGE:SIGNED` frame,
(i) the frame is dropped iff an entry with identical
`(type, author, transactionHash)` was received within the last 5 seconds;
(ii) on every ingress the surviving window holds no entry older than
5 seconds; (iii) two `MESSAGE:REQUEST` frames with the same
`(author, transactionHash)` at most 5 seconds apart reach the message
handler (and hence the coordinator) exactly once: if the first one was
delivered, the second is dropped. -/
theorem claim_C3 (now t1 : Int) (topic : String) (m m1 : Message)
    (rs : List RecentMessage)
    (hTopic : topic = "MESSAGE:REQUEST" ∨ topic = "MESSAGE:SIGNED") :
    ((p2pHandleMessage now topic m rs).2 = false ↔
      ∃ r ∈ rs, r.type = topic ∧ r.author = m.author ∧
        r.transactionHash = m.transactionHash.getD "" ∧ now - r.timestamp ≤ 5000) ∧
    (∀ (topicI : String) (mI : Message),
      ∀ r ∈ (p2pHandleMessage now topicI mI rs).1, now - r.timestamp ≤ 5000) ∧
    (topic = "MESSAGE:REQUEST" → m1.author = m.author →
      m1.transactionHash.getD "" = m.transactionHash.getD "" →
      now ≤ t1 → t1 - now ≤ 5000 →
      (p2pHandleMessage now topic m rs).2 = true →
      (p2pHandleMessage t1 "MESSAGE:REQUEST" m1 (p2pHandleMessage now topic m rs).1).2 = false) := by
  have hcond : topic = "MESSAGE:SIGNED" ∨ topic = "MESSAGE:REQUEST" :=
    hTopic.elim Or.inr Or.inl
  have key : isDuplicateP2P now topic m.author (m.transactionHash.getD "")
      (cleanupRecent now rs) = true ↔
      ∃ r ∈ rs, r.type = topic ∧ r.author = m.author ∧
        r.transactionHash = m.transactionHash.getD "" ∧ now - r.timestamp ≤ 5000 := by
    simp only [isDuplicateP2P, cleanupRecent, List.any_eq_true, List.mem_filter,
      Bool.and_eq_true, Bool.or_eq_true, decide_eq_true_eq]
    constructor
    · rintro ⟨r, ⟨hr, hage⟩, ⟨⟨hty, hau⟩, hhash⟩, _⟩
      exact ⟨r, hr, hty, hau, hhash, hage⟩
    · rintro ⟨r, hr, hty, hau, hhash, hage⟩
      refine ⟨r, ⟨hr, hage⟩, ⟨⟨hty, hau⟩, hhash⟩, ?_⟩
      rcases hTopic with h | h
      · exact Or.inr ⟨h, hage⟩
      · exact Or.inl h
  refine ⟨?_, ?_, ?_⟩
  · by_cases hdup : isDuplicateP2P now topic m.author (m.transactionHash.getD "")
        (cleanupRecent now rs) = true
    · refine ⟨fun _ => key.mp hdup, fun _ => ?_⟩
      simp only [p2pHandleMessage]
      rw [if_pos hcond, if_pos hdup]
    · refine ⟨fun hfalse => absurd ?_ hdup, fun hex => absurd (key.mpr hex) hdup⟩
      by_contra hnd
      rw [p2pHandleMessage] at hfalse
      rw [if_pos hcond, if_neg hnd] at hfalse
      simp at hfalse
  · intro topicI mI r hr
    by_cases hc : topicI = "MESSAGE:SIGNED" ∨ topicI = "MESSAGE:REQUEST"
    · rw [p2pHandleMessage, if_pos hc] at hr
      by_cases hd : isDuplicateP2P now topicI mI.author (mI.transactionHash.getD "")
          (cleanupRecent now rs) = true
      · rw [if_pos hd] at hr
        have := (List.mem_filter.mp hr).2
        simpa using this
      · rw [if_neg hd] at hr
        rcases List.mem_append.mp hr with hmem | hmem
        · have := (List.mem_filter.mp hmem).2
          simpa using this
        · rcases List.mem_singleton.mp hmem with rfl
          simp
    · rw [p2pHandleMessage, if_neg hc] at hr
      have := (List.mem_filter.mp hr).2
      simpa using this
  · intro hReq hAu hHash _hLe hWin hTrue
    by_cases hdup : isDuplicateP2P now topic m.author (m.transactionHash.getD "")
        (cleanupRecent now rs) = true
    · exfalso
      rw [p2pHandleMessage] at hTrue
      rw [if_pos hcond, if_pos hdup] at hTrue
      simp at hTrue
    · have hfst : (p2pHandleMessage now topic m rs).1 =
          cleanupRecent now rs ++ [⟨now, m.author, m.transactionHash.getD "", topic⟩] := by
        rw [p2pHandleMessage]
        rw [if_pos hcond, if_neg hdup]
      rw [hfst]
      have hdup2 : isDuplicateP2P t1 "MESSAGE:REQUEST" m1.author (m1.transactionHash.getD "")
          (cleanupRecent t1 (cleanupRecent now rs ++
            [⟨now, m.author, m.transactionHash.getD "", topic⟩])) = true := by
        apply List.any_eq_true.mpr
        refine ⟨⟨now, m.author, m.transactionHash.getD "", topic⟩, ?_, ?_⟩
        · apply List.mem_filter.mpr
          exact ⟨List.mem_append_right _ (List.mem_singleton.mpr rfl), by simpa using hWin⟩
        · simp [hReq, hAu, hHash, hWin]
      rw [p2pHandleMessage]
      rw [if_pos (Or.inr rfl), if_pos hdup2]

/-- C3 witness: a first request at t = 1000 is delivered and records the
window entry; an identical request 3 seconds later is dropped. -/
theorem claim_C3_witness :
    ("MESSAGE:REQUEST" = "MESSAGE:REQUEST" ∨ "MESSAGE:REQUEST" = "MESSAGE:SIGNED") ∧
    (((p2pHandleMessage 1000 "MESSAGE:REQUEST" msg42 []).2 = false ↔
      ∃ r ∈ ([] : List RecentMessage), r.type = "MESSAGE:REQUEST" ∧ r.author = msg42.author ∧
        r.transactionHash = msg42.transactionHash.getD "" ∧ (1000 : Int) - r.timestamp ≤ 5000) ∧
    (∀ (topicI : String) (mI : Message),
      ∀ r ∈ (p2pHandleMessage 1000 topicI mI []).1, (1000 : Int) - r.timestamp ≤ 5000) ∧
    ("MESSAGE:REQUEST" = "MESSAGE:REQUEST" → msg42.author = msg42.author →
      msg42.transactionHash.getD "" = msg42.transactionHash.getD "" →
      (1000 : Int) ≤ 4000 → (4000 : Int) - 1000 ≤ 5000 →
      (p2pHandleMessage 1000 "MESSAGE:REQUEST" msg42 []).2 = true →
      (p2pHandleMessage 4000 "MESSAGE:REQUEST" msg42
        (p2pHandleMessage 1000 "MESSAGE:REQUEST" msg42 []).1).2 = false)) := by
  constructor
  · exact Or.inl rfl
  · exact claim_C3 1000 4000 "MESSAGE:REQUEST" msg42 msg42 [] (Or.inl rfl)

end NodeCore
